import Mathlib

/-!
Shallow embedding of the playback-orchestration core of the music-asset
preview program (Go package `player`, plus the extension predicates of
package `files`).  Pure data is translated directly; the audio backend,
the filesystem and the codecs are modelled as boolean oracles in an
`AudioEnv` record, and machine `int` values as `Int`.  Floating point
durations and volumes are modelled as rationals; the concrete constants
used by the program (`2.0`, `60`, `5.0`, …) are exact in both.
-/

namespace MusicAssetTester

/-- Result of Go `filepath.Ext` scanned from the end of the path:
the suffix starting at the last dot that occurs after the last path
separator.  `revChars` is the reversed character list of the path,
`acc` the characters already passed (in original order). -/
def extAuxRev : List Char → List Char → String
  | [], _ => ""
  | c :: rest, acc =>
      if c = '/' then ""
      else if c = '.' then String.mk (c :: acc)
      else extAuxRev rest (c :: acc)

/-- Go `filepath.Ext`. -/
def filepathExt (path : String) : String :=
  extAuxRev path.data.reverse []

/-- Go `strings.ToLower`, rune-wise lower-casing (the extensions the
program compares against are plain ASCII). -/
def strToLower (s : String) : String :=
  String.mk (s.data.map Char.toLower)

/-- `files.IsWavFile`. -/
def IsWavFile (path : String) : Bool :=
  strToLower (filepathExt path) == ".wav"

/-- `files.IsOggFile`. -/
def IsOggFile (path : String) : Bool :=
  strToLower (filepathExt path) == ".ogg"

/-- `files.IsMp3File`. -/
def IsMp3File (path : String) : Bool :=
  strToLower (filepathExt path) == ".mp3"

/-- The selector state: ordered track list plus current index
(`-1` when no selection), as in the Go `MusicSelector` struct.
The `sync.RWMutex` field only serialises access and carries no data. -/
structure MusicSelector where
  musicFiles : List String
  currentIndex : Int
deriving DecidableEq, Repr

/-- `NewMusicSelector`: empty library, no initial selection. -/
def NewMusicSelector : MusicSelector :=
  { musicFiles := [], currentIndex := -1 }

/-- Go string indexing used by the selector: `files[i]` for an index the
code has already range-checked; out of range yields a junk value. -/
def fileAt (files : List String) (i : Int) : String :=
  files.getD i.toNat ""

/-- Valid-index test `0 <= i && i < len(files)` used throughout. -/
def idxValid (files : List String) (i : Int) : Bool :=
  decide (0 ≤ i ∧ i < (files.length : Int))

/-- The linear search in `MusicSelector.Update` (`for i, file := range`):
index of the first element equal to `pth`, if any. -/
def findPathIdx : List String → String → Option Nat
  | [], _ => none
  | f :: rest, pth =>
      if f = pth then some 0 else (findPathIdx rest pth).map (· + 1)

/-- `MusicSelector.Update`: replace the library, preserving the current
path when possible; returns the new state and `indexChanged`. -/
def MusicSelector.Update (s : MusicSelector) (newFiles : List String) :
    MusicSelector × Bool :=
  let currentPath :=
    if idxValid s.musicFiles s.currentIndex then
      fileAt s.musicFiles s.currentIndex
    else ""
  let oldIndex := s.currentIndex
  let found : Option Nat :=
    if currentPath ≠ "" then findPathIdx newFiles currentPath else none
  let newIndex : Int :=
    match found with
    | some i => (i : Int)
    | none => if 0 < newFiles.length then 0 else -1
  ({ musicFiles := newFiles, currentIndex := newIndex },
   decide (oldIndex ≠ newIndex))

/-- `MusicSelector.CurrentFile`: current path and validity flag. -/
def MusicSelector.CurrentFile (s : MusicSelector) : String × Bool :=
  if idxValid s.musicFiles s.currentIndex then
    (fileAt s.musicFiles s.currentIndex, true)
  else ("", false)

/-- `MusicSelector.Files` (defensive copy; value-equal in the model). -/
def MusicSelector.Files (s : MusicSelector) : List String :=
  s.musicFiles

/-- `MusicSelector.SelectNext`: advance with wrap-around; returns the
new state and whether the index changed. -/
def MusicSelector.SelectNext (s : MusicSelector) : MusicSelector × Bool :=
  if s.musicFiles.length = 0 then
    ({ s with currentIndex := -1 }, false)
  else
    let oldIndex := s.currentIndex
    let inc := s.currentIndex + 1
    let newIndex : Int :=
      if (s.musicFiles.length : Int) ≤ inc then 0 else inc
    ({ s with currentIndex := newIndex }, decide (oldIndex ≠ newIndex))

/-- Errors surfaced by the selector, loader and engine.  Each value
stands for one distinct `fmt.Errorf` site in the Go code. -/
inductive PErr
  | outOfRange
  | openFailed
  | unsupportedFormat
  | decodeFailed
  | noLength
  | factoryFailed
  | noMusicSelected
deriving DecidableEq, Repr

/-- `MusicSelector.SelectIndex`: range-checked selection. -/
def MusicSelector.SelectIndex (s : MusicSelector) (index : Int) :
    MusicSelector × Option PErr :=
  if index < 0 ∨ (s.musicFiles.length : Int) ≤ index then
    (s, some PErr.outOfRange)
  else
    ({ s with currentIndex := index }, none)

/-- `MusicSelector.CurrentIndex`. -/
def MusicSelector.CurrentIndex (s : MusicSelector) : Int :=
  s.currentIndex

/-- Oracles standing for the effectful collaborators of the engine:
`os.Open` success, codec acceptance of the content, whether the decoded
stream supports `Length()`, and `PlayerFactory.NewPlayer` success — each
keyed by the file path being loaded. -/
structure AudioEnv where
  openOk : String → Bool
  decodeOk : String → Bool
  lengthOk : String → Bool
  newPlayerOk : String → Bool

/-- `MusicLoader.LoadStream`: open, then dispatch on the extension to a
decoder; unsupported extensions and decoder rejections are errors. -/
def LoadStream (env : AudioEnv) (filePath : String) : Option PErr :=
  if env.openOk filePath = false then some PErr.openFailed
  else if IsWavFile filePath then
    (if env.decodeOk filePath then none else some PErr.decodeFailed)
  else if IsOggFile filePath then
    (if env.decodeOk filePath then none else some PErr.decodeFailed)
  else if IsMp3File filePath then
    (if env.decodeOk filePath then none else some PErr.decodeFailed)
  else some PErr.unsupportedFormat

/-- Observable state of a playable handle wrapped by the Go `Music`
struct: its last-set volume and whether it is playing. -/
structure Music where
  hvolume : ℚ
  hplaying : Bool
deriving DecidableEq, Repr

/-- `Music.SetVolume`. -/
def Music.SetVolume (m : Music) (v : ℚ) : Music :=
  { m with hvolume := v }

/-- `Music.Play`. -/
def Music.Play (m : Music) : Music :=
  { m with hplaying := true }

/-- `Music.Pause`. -/
def Music.Pause (m : Music) : Music :=
  { m with hplaying := false }

/-- The player state enum. -/
inductive PlayerState
  | StateStopped
  | StatePlaying
  | StateFadingOut
  | StateInterval
deriving DecidableEq, Repr

/-- Go `int(x)` conversion from a float: truncation toward zero
(`Int.div` of the reduced numerator by the denominator truncates
toward zero for either sign). -/
def goInt (q : ℚ) : Int :=
  Int.tdiv q.num (q.den : Int)

/-- `fadeOutDuration.Seconds()` for the constant `2 * time.Second`. -/
def fadeOutDurationSeconds : ℚ := 2

/-- `int(fadeOutDuration.Seconds() * 60)`, recomputed each fading tick. -/
def fadeOutFrames : Int :=
  goInt (fadeOutDurationSeconds * 60)

/-- The engine: Go `MusicPlayer` struct (the `playerFactory`, `loader`
and `audioStream` fields carry no model-relevant state). -/
structure MusicPlayer where
  selector : MusicSelector
  currentMusic : Option Music
  state : PlayerState
  counter : Int
  isPaused : Bool
  loopDuration : ℚ
  intervalDuration : ℚ
  volume : ℚ
deriving DecidableEq, Repr

/-- `MusicPlayer.loadCurrentMusic`: close any handle, ask the selector
for the current file, load and decode it, materialise and start a new
handle at the engine's current volume. -/
def loadCurrentMusic (env : AudioEnv) (p : MusicPlayer) :
    MusicPlayer × Option PErr :=
  let cf := p.selector.CurrentFile
  if cf.2 = false then
    ({ p with currentMusic := none, state := PlayerState.StateStopped },
     some PErr.noMusicSelected)
  else
    let currentPath := cf.1
    let p1 := { p with currentMusic := (none : Option Music) }
    match LoadStream env currentPath with
    | some e => (p1, some e)
    | none =>
        if env.lengthOk currentPath = false then (p1, some PErr.noLength)
        else if env.newPlayerOk currentPath = false then
          (p1, some PErr.factoryFailed)
        else
          let m := (Music.mk 0 false).SetVolume p1.volume
          ({ p1 with
              currentMusic := some m.Play,
              counter := 0,
              state := PlayerState.StatePlaying,
              isPaused := false }, none)

/-- `MusicPlayer.SetCurrentIndex`: select then load. -/
def SetCurrentIndex (env : AudioEnv) (p : MusicPlayer) (index : Int) :
    MusicPlayer × Option PErr :=
  let r := p.selector.SelectIndex index
  match r.2 with
  | some e => ({ p with selector := r.1 }, some e)
  | none => loadCurrentMusic env { p with selector := r.1 }

/-- `MusicPlayer.SkipToNext`: advance the selector; reload (with the
volume reset to 1) only when the index changed. -/
def SkipToNext (env : AudioEnv) (p : MusicPlayer) :
    MusicPlayer × Option PErr :=
  let r := p.selector.SelectNext
  let p1 := { p with selector := r.1 }
  if r.2 = false then (p1, none)
  else loadCurrentMusic env { p1 with volume := 1 }

/-- `MusicPlayer.Update`: one tick of the state machine.  A tick with no
handle or while paused is a no-op; otherwise the counter is incremented
and the active state's transition logic runs. -/
def MusicPlayer.Update (env : AudioEnv) (p : MusicPlayer) :
    MusicPlayer × Option PErr :=
  if p.currentMusic = none ∨ p.isPaused = true then (p, none)
  else
    let p1 := { p with counter := p.counter + 1 }
    match p1.state with
    | PlayerState.StateStopped => (p1, none)
    | PlayerState.StatePlaying =>
        let loopDurationFrames := goInt (p1.loopDuration * 60 * 60)
        if loopDurationFrames ≤ p1.counter then
          ({ p1 with state := PlayerState.StateFadingOut, counter := 0 },
           none)
        else (p1, none)
    | PlayerState.StateFadingOut =>
        if fadeOutFrames ≤ p1.counter then
          ({ p1 with
              state := PlayerState.StateInterval,
              counter := 0,
              currentMusic := p1.currentMusic.map Music.Pause }, none)
        else
          let fadeRatio : ℚ := 1 - (p1.counter : ℚ) / (fadeOutFrames : ℚ)
          ({ p1 with
              volume := fadeRatio,
              currentMusic :=
                p1.currentMusic.map (fun m => m.SetVolume fadeRatio) },
           none)
    | PlayerState.StateInterval =>
        let intervalFrames := goInt (p1.intervalDuration * 60)
        if intervalFrames ≤ p1.counter then
          SkipToNext env { p1 with volume := 1 }
        else (p1, none)

/-- `MusicPlayer.UpdateMusicFiles`: forward the new list to the
selector; reload or stop only when the selection index changed (a load
failure is logged and the error discarded). -/
def UpdateMusicFiles (env : AudioEnv) (p : MusicPlayer)
    (newFiles : List String) : MusicPlayer :=
  let r := p.selector.Update newFiles
  let p1 := { p with selector := r.1 }
  if r.2 = true then
    if (r.1.CurrentFile).2 = true then (loadCurrentMusic env p1).1
    else
      { p1 with
          currentMusic := none,
          state := PlayerState.StateStopped,
          isPaused := false }
  else p1

/-- Iterated ticks of the engine (errors discarded, as the host loop
does after logging). -/
def ticks (env : AudioEnv) (p : MusicPlayer) : Nat → MusicPlayer
  | 0 => p
  | n + 1 => (MusicPlayer.Update env (ticks env p n)).1

/-- Iterated `SelectNext` on the selector. -/
def selectNextIter (s : MusicSelector) : Nat → MusicSelector
  | 0 => s
  | n + 1 => ((selectNextIter s n).SelectNext).1

/-- All four load oracles succeed for the path, and its extension is one
the loader dispatches on — exactly the condition under which
`loadCurrentMusic` succeeds once the selector has a current file. -/
def loadOk (env : AudioEnv) (path : String) : Bool :=
  env.openOk path &&
    (IsWavFile path || IsOggFile path || IsMp3File path) &&
    env.decodeOk path && env.lengthOk path && env.newPlayerOk path

/-- An environment in which every oracle succeeds on every path. -/
def envAll : AudioEnv :=
  { openOk := fun _ => true
    decodeOk := fun _ => true
    lengthOk := fun _ => true
    newPlayerOk := fun _ => true }

/-! ## Helper lemmas -/

theorem findPathIdx_eq_none (files : List String) (pth : String)
    (h : pth ∉ files) : findPathIdx files pth = none := by
  induction files with
  | nil => rfl
  | cons f rest ih =>
      rw [List.mem_cons] at h
      push_neg at h
      have hf : ¬ f = pth := fun hf => h.1 hf.symm
      simp [findPathIdx, hf, ih h.2]

theorem findPathIdx_mem (files : List String) (pth : String)
    (h : pth ∈ files) :
    ∃ i : Nat, findPathIdx files pth = some i ∧ i < files.length ∧
      files.getD i "" = pth := by
  induction files with
  | nil => cases h
  | cons f rest ih =>
      by_cases hf : f = pth
      · exact ⟨0, by simp [findPathIdx, hf], by simp, by simp [hf]⟩
      · have hmem : pth ∈ rest := by
          rcases List.mem_cons.mp h with h1 | h1
          · exact absurd h1.symm hf
          · exact h1
        obtain ⟨i, hfind, hlt, hget⟩ := ih hmem
        exact ⟨i + 1, by simp [findPathIdx, hf, hfind],
          by simpa using hlt, by simpa using hget⟩

theorem SelectNext_files (s : MusicSelector) :
    (s.SelectNext).1.musicFiles = s.musicFiles := by
  unfold MusicSelector.SelectNext
  split <;> rfl

theorem SelectNext_index (s : MusicSelector)
    (h : s.musicFiles.length ≠ 0) :
    (s.SelectNext).1.currentIndex =
      if (s.musicFiles.length : Int) ≤ s.currentIndex + 1 then 0
      else s.currentIndex + 1 := by
  unfold MusicSelector.SelectNext
  simp [h]

theorem selectNextIter_spec (s : MusicSelector) (N : Nat)
    (hN : s.musicFiles.length = N) (h1 : 1 ≤ N)
    (h0 : 0 ≤ s.currentIndex) (hlt : s.currentIndex < (N : Int)) :
    ∀ k : Nat, k ≤ N →
      (selectNextIter s k).musicFiles = s.musicFiles ∧
      (selectNextIter s k).currentIndex =
        (if s.currentIndex + (k : Int) < (N : Int)
          then s.currentIndex + (k : Int)
          else s.currentIndex + (k : Int) - (N : Int)) := by
  intro k
  induction k with
  | zero =>
      intro _
      refine ⟨rfl, ?_⟩
      simp [selectNextIter]
      omega
  | succ k ih =>
      intro hk
      obtain ⟨hf, hi⟩ := ih (by omega)
      have hlen : (selectNextIter s k).musicFiles.length ≠ 0 := by
        rw [hf, hN]; omega
      have hstep :
          (selectNextIter s (k + 1)).currentIndex =
            if ((selectNextIter s k).musicFiles.length : Int) ≤
                (selectNextIter s k).currentIndex + 1 then 0
            else (selectNextIter s k).currentIndex + 1 := by
        simpa [selectNextIter] using
          SelectNext_index (selectNextIter s k) hlen
      refine ⟨?_, ?_⟩
      · show ((selectNextIter s k).SelectNext).1.musicFiles = s.musicFiles
        rw [SelectNext_files, hf]
      · rw [hstep, hf, hN, hi]
        push_cast
        split <;> split <;> split <;> omega

/-- C9.  `SelectIndex(i)` with `i` outside the valid range returns an
`OutOfRange` error and leaves the selector (library and selection)
unchanged; with a valid `i` it sets the selection to `i` and returns no
error. -/
theorem selectIndex_out_of_range_atomic (s : MusicSelector) (i : Int) :
    ((i < 0 ∨ (s.musicFiles.length : Int) ≤ i) →
      s.SelectIndex i = (s, some PErr.outOfRange)) ∧
    ((0 ≤ i ∧ i < (s.musicFiles.length : Int)) →
      s.SelectIndex i = ({ s with currentIndex := i }, none)) := by
  constructor
  · intro h
    simp [MusicSelector.SelectIndex, h]
  · intro h
    have hno : ¬ (i < 0 ∨ (s.musicFiles.length : Int) ≤ i) := by omega
    simp [MusicSelector.SelectIndex, hno]

theorem selectIndex_out_of_range_atomic_witness :
    (MusicSelector.SelectIndex ⟨["a", "b"], 0⟩ 5 =
      (⟨["a", "b"], 0⟩, some PErr.outOfRange)) ∧
    (MusicSelector.SelectIndex ⟨["a", "b"], 0⟩ 1 =
      (⟨["a", "b"], 1⟩, none)) :=
  ⟨(selectIndex_out_of_range_atomic ⟨["a", "b"], 0⟩ 5).1 (by decide),
   (selectIndex_out_of_range_atomic ⟨["a", "b"], 0⟩ 1).2 (by decide)⟩

/-- C8.  On a library of `N ≥ 1` files with valid current index,
`SelectNext` advances by one with wrap-around to 0, and `N` successive
applications return the index to its original value; on an empty
library the selection stays unset (`-1`) and `SelectNext` reports no
change. -/
theorem selectNext_cycles (s : MusicSelector) (N : Nat)
    (hN : s.musicFiles.length = N) :
    (1 ≤ N → 0 ≤ s.currentIndex → s.currentIndex < (N : Int) →
      ((s.SelectNext).1.currentIndex =
          (if s.currentIndex + 1 < (N : Int) then s.currentIndex + 1
            else 0) ∧
        (selectNextIter s N).currentIndex = s.currentIndex ∧
        (selectNextIter s N).musicFiles = s.musicFiles)) ∧
    (N = 0 →
      (s.SelectNext).1.currentIndex = -1 ∧ (s.SelectNext).2 = false) := by
  constructor
  · intro h1 h0 hlt
    refine ⟨?_, ?_, ?_⟩
    · rw [SelectNext_index s (by omega)]
      split <;> split <;> omega
    · obtain ⟨-, hi⟩ := selectNextIter_spec s N hN h1 h0 hlt N le_rfl
      rw [hi]
      split <;> omega
    · exact (selectNextIter_spec s N hN h1 h0 hlt N le_rfl).1
  · intro h0
    have hz : s.musicFiles.length = 0 := by rw [hN, h0]
    unfold MusicSelector.SelectNext
    simp [hz]

theorem selectNext_cycles_witness :
    ((MusicSelector.SelectNext ⟨["a", "b", "c"], 1⟩).1.currentIndex =
        (if (1 : Int) + 1 < (3 : Nat) then 1 + 1 else 0) ∧
      (selectNextIter ⟨["a", "b", "c"], 1⟩ 3).currentIndex = 1 ∧
      (selectNextIter ⟨["a", "b", "c"], 1⟩ 3).musicFiles =
        ["a", "b", "c"]) ∧
    ((MusicSelector.SelectNext ⟨[], 5⟩).1.currentIndex = -1 ∧
      (MusicSelector.SelectNext ⟨[], 5⟩).2 = false) :=
  ⟨(selectNext_cycles ⟨["a", "b", "c"], 1⟩ 3 rfl).1 (by decide) (by decide)
      (by decide),
   (selectNext_cycles ⟨[], 5⟩ 0 rfl).2 rfl⟩

/-- C7.  When the previously-current path is absent from the new list,
`Update` falls back to index 0 on a non-empty list and to the unset
selection (`-1`) on an empty list; and on any selector whose library is
empty, `CurrentFile` reports `ok = false`. -/
theorem update_fallback (s : MusicSelector) (list : List String)
    (hvalid : 0 ≤ s.currentIndex ∧
      s.currentIndex < (s.musicFiles.length : Int))
    (habsent : fileAt s.musicFiles s.currentIndex ∉ list) :
    ((list ≠ [] → (s.Update list).1.currentIndex = 0) ∧
      (list = [] → (s.Update list).1.currentIndex = -1)) ∧
    (∀ t : MusicSelector, t.musicFiles = [] →
      (t.CurrentFile).2 = false) := by
  have hv : idxValid s.musicFiles s.currentIndex = true := by
    simp [idxValid]
    omega
  have hfound :
      (if fileAt s.musicFiles s.currentIndex ≠ "" then
          findPathIdx list (fileAt s.musicFiles s.currentIndex)
        else none) = none := by
    split
    · exact findPathIdx_eq_none list _ habsent
    · rfl
  constructor
  · constructor
    · intro hne
      have hlen : 0 < list.length := List.length_pos.mpr hne
      simp [MusicSelector.Update, hv, hfound, hlen]
    · intro hnil
      subst hnil
      simp [MusicSelector.Update, hv, hfound]
  · intro t ht
    have : ¬ (0 ≤ t.currentIndex ∧
        t.currentIndex < (t.musicFiles.length : Int)) := by
      rw [ht]
      simp
    simp [MusicSelector.CurrentFile, idxValid, this]

theorem update_fallback_witness :
    (((["c", "d"] : List String) ≠ [] →
        (MusicSelector.Update ⟨["a", "b"], 1⟩ ["c", "d"]).1.currentIndex
          = 0) ∧
      ((["c", "d"] : List String) = [] →
        (MusicSelector.Update ⟨["a", "b"], 1⟩ ["c", "d"]).1.currentIndex
          = -1)) ∧
    (∀ t : MusicSelector, t.musicFiles = [] →
      (t.CurrentFile).2 = false) :=
  update_fallback ⟨["a", "b"], 1⟩ ["c", "d"] (by decide) (by decide)

/-- C1 counterexample.  The code uses the empty string as a "no current
path" sentinel, so a library whose current entry is literally `""` is
not preserved by `Update` even though `""` occurs in the new list: the
selection falls back to index 0, which now holds `"a"`. -/
theorem update_stability_counterexample :
    (MusicSelector.CurrentFile ⟨[""], 0⟩ = ("", true)) ∧
    ("" ∈ ["a", ""]) ∧
    ((MusicSelector.Update ⟨[""], 0⟩ ["a", ""]).1.CurrentFile =
      ("a", true)) ∧
    ((MusicSelector.Update ⟨[""], 0⟩ ["a", ""]).1.CurrentFile ≠
      ("", true)) := by
  decide

/-- C1 amended.  If the previously-current path is non-empty and occurs
in the new list, `Update` moves the selection to that path's first
position in the new list and `CurrentFile` returns the same path with
`ok = true`. -/
theorem update_preserves_current (s : MusicSelector) (list : List String)
    (hvalid : 0 ≤ s.currentIndex ∧
      s.currentIndex < (s.musicFiles.length : Int))
    (hne : fileAt s.musicFiles s.currentIndex ≠ "")
    (hmem : fileAt s.musicFiles s.currentIndex ∈ list) :
    ∃ i : Nat,
      findPathIdx list (fileAt s.musicFiles s.currentIndex) = some i ∧
      (s.Update list).1.currentIndex = (i : Int) ∧
      (s.Update list).1.CurrentFile =
        (fileAt s.musicFiles s.currentIndex, true) := by
  have hv : idxValid s.musicFiles s.currentIndex = true := by
    simp [idxValid]
    omega
  obtain ⟨i, hfind, hlt, hget⟩ := findPathIdx_mem list _ hmem
  refine ⟨i, hfind, ?_, ?_⟩
  · simp [MusicSelector.Update, hv, hne, hfind]
  · have hv2 : idxValid list (i : Int) = true := by
      simp [idxValid]
      omega
    have hfa : fileAt list (i : Int) =
        fileAt s.musicFiles s.currentIndex := by
      simpa [fileAt] using hget
    simp [MusicSelector.Update, hv, hne, hfind,
      MusicSelector.CurrentFile, hv2, hfa]

theorem update_preserves_current_witness :
    ∃ i : Nat,
      findPathIdx ["b", "c"] (fileAt ["a", "b"] 1) = some i ∧
      (MusicSelector.Update ⟨["a", "b"], 1⟩ ["b", "c"]).1.currentIndex
        = (i : Int) ∧
      (MusicSelector.Update ⟨["a", "b"], 1⟩ ["b", "c"]).1.CurrentFile =
        (fileAt ["a", "b"] 1, true) :=
  update_preserves_current ⟨["a", "b"], 1⟩ ["b", "c"] (by decide)
    (by decide) (by decide)

/-- C10.  When the previously-current path (at index 0) is absent from
a non-empty new list, `Update` keeps index 0 and reports no change, so
`UpdateMusicFiles` swaps the selector's library without reloading: the
engine keeps the handle loaded for the removed file. -/
theorem update_index_unchanged_no_reload (env : AudioEnv)
    (p : MusicPlayer) (list : List String)
    (h0 : p.selector.currentIndex = 0)
    (hne : p.selector.musicFiles ≠ [])
    (hl : list ≠ [])
    (habsent : fileAt p.selector.musicFiles 0 ∉ list) :
    (p.selector.Update list).2 = false ∧
    UpdateMusicFiles env p list =
      { p with selector := { musicFiles := list, currentIndex := 0 } } := by
  have hv : idxValid p.selector.musicFiles p.selector.currentIndex
      = true := by
    have : 0 < p.selector.musicFiles.length := List.length_pos.mpr hne
    simp [idxValid, h0]
    omega
  have habsent2 :
      fileAt p.selector.musicFiles p.selector.currentIndex ∉ list := by
    rw [h0]; exact habsent
  have hfound :
      (if fileAt p.selector.musicFiles p.selector.currentIndex ≠ "" then
          findPathIdx list
            (fileAt p.selector.musicFiles p.selector.currentIndex)
        else none) = none := by
    split
    · exact findPathIdx_eq_none list _ habsent2
    · rfl
  have hlen : 0 < list.length := List.length_pos.mpr hl
  have hupd : p.selector.Update list = (⟨list, 0⟩, false) := by
    have hv0 : idxValid p.selector.musicFiles 0 = true := by
      rw [← h0]; exact hv
    by_cases hb : fileAt p.selector.musicFiles 0 = ""
    · simp [MusicSelector.Update, h0, hv0, hb, hlen]
    · simp [MusicSelector.Update, h0, hv0, hb, hlen,
        findPathIdx_eq_none list _ habsent]
  refine ⟨by rw [hupd], ?_⟩
  unfold UpdateMusicFiles
  rw [hupd]
  simp

theorem update_index_unchanged_no_reload_witness :
    (MusicSelector.Update ⟨["gone.wav", "b.wav"], 0⟩ ["x.wav", "b.wav"]).2
      = false ∧
    UpdateMusicFiles envAll
      { selector := ⟨["gone.wav", "b.wav"], 0⟩,
        currentMusic := some ⟨1, true⟩,
        state := PlayerState.StatePlaying, counter := 7,
        isPaused := false, loopDuration := 5, intervalDuration := 10,
        volume := 1 } ["x.wav", "b.wav"] =
      { selector := ⟨["x.wav", "b.wav"], 0⟩,
        currentMusic := some ⟨1, true⟩,
        state := PlayerState.StatePlaying, counter := 7,
        isPaused := false, loopDuration := 5, intervalDuration := 10,
        volume := 1 } :=
  update_index_unchanged_no_reload envAll
    { selector := ⟨["gone.wav", "b.wav"], 0⟩,
      currentMusic := some ⟨1, true⟩,
      state := PlayerState.StatePlaying, counter := 7,
      isPaused := false, loopDuration := 5, intervalDuration := 10,
      volume := 1 } ["x.wav", "b.wav"] rfl (by decide) (by decide)
    (by decide)

/-! ## Engine helper lemmas -/

theorem fadeOutFrames_eq : fadeOutFrames = 120 := by
  norm_num [fadeOutFrames, goInt, fadeOutDurationSeconds]

theorem currentFile_valid (s : MusicSelector) (pth : String)
    (h : s.CurrentFile = (pth, true)) :
    idxValid s.musicFiles s.currentIndex = true ∧
    fileAt s.musicFiles s.currentIndex = pth := by
  unfold MusicSelector.CurrentFile at h
  by_cases hv : idxValid s.musicFiles s.currentIndex = true
  · rw [if_pos hv] at h
    exact ⟨hv, (Prod.mk.injEq _ _ _ _).mp h |>.1⟩
  · rw [if_neg hv] at h
    exact absurd ((Prod.mk.injEq _ _ _ _).mp h).2 (by simp)

theorem LoadStream_ok (env : AudioEnv) (pth : String)
    (h : loadOk env pth = true) : LoadStream env pth = none := by
  unfold loadOk at h
  simp only [Bool.and_eq_true, Bool.or_eq_true] at h
  obtain ⟨⟨⟨⟨hopen, hext⟩, hdec⟩, -⟩, -⟩ := h
  unfold LoadStream
  by_cases h1 : IsWavFile pth <;> by_cases h2 : IsOggFile pth <;>
    by_cases h3 : IsMp3File pth <;> simp_all [hopen, hdec]

theorem loadCurrentMusic_ok (env : AudioEnv) (p : MusicPlayer)
    (pth : String)
    (hsel : p.selector.CurrentFile = (pth, true))
    (hok : loadOk env pth = true) :
    loadCurrentMusic env p =
      ({ p with
          currentMusic := some { hvolume := p.volume, hplaying := true },
          counter := 0,
          state := PlayerState.StatePlaying,
          isPaused := false }, none) := by
  have hload := LoadStream_ok env pth hok
  have hlen : env.lengthOk pth = true := by
    unfold loadOk at hok
    simp only [Bool.and_eq_true] at hok
    exact hok.1.2
  have hfac : env.newPlayerOk pth = true := by
    unfold loadOk at hok
    simp only [Bool.and_eq_true] at hok
    exact hok.2
  unfold loadCurrentMusic
  rw [hsel]
  simp [hload, hlen, hfac, Music.SetVolume, Music.Play]

theorem loadCurrentMusic_volume (env : AudioEnv) (p : MusicPlayer) :
    (loadCurrentMusic env p).1.volume = p.volume := by
  simp only [loadCurrentMusic]
  repeat first
  | rfl
  | split

theorem loadCurrentMusic_selector (env : AudioEnv) (p : MusicPlayer) :
    (loadCurrentMusic env p).1.selector = p.selector := by
  simp only [loadCurrentMusic]
  repeat first
  | rfl
  | split

theorem SkipToNext_volume (env : AudioEnv) (p : MusicPlayer) :
    (SkipToNext env p).1.volume =
      (if (p.selector.SelectNext).2 = true then 1 else p.volume) := by
  unfold SkipToNext
  by_cases hch : (p.selector.SelectNext).2 = true
  · rw [if_pos hch]
    simp only [hch]
    simp [loadCurrentMusic_volume]
  · rw [if_neg hch]
    simp only [Bool.not_eq_true] at hch
    simp [hch]

theorem SetCurrentIndex_volume (env : AudioEnv) (p : MusicPlayer)
    (i : Int) : (SetCurrentIndex env p i).1.volume = p.volume := by
  simp only [SetCurrentIndex]
  split
  · rfl
  · exact loadCurrentMusic_volume env _

theorem UpdateMusicFiles_volume (env : AudioEnv) (p : MusicPlayer)
    (newFiles : List String) :
    (UpdateMusicFiles env p newFiles).volume = p.volume := by
  simp only [UpdateMusicFiles]
  split
  · split
    · exact loadCurrentMusic_volume env _
    · rfl
  · rfl

/-- C2.  In `FadingOut` (fade length `fadeOutFrames = 120` frames), an
unpaused tick that brings the counter to `c` with `0 < c < 120` sets
both the engine volume and the handle volume to `1 - c/120` (so the
ramp value is `1` at `c = 0` and `1/2` at `c = 60`); the tick that
brings the counter to `120` pauses the handle, enters `Interval`,
resets the counter to `0`, and applies no volume. -/
theorem fadeout_ramp (env : AudioEnv) (p : MusicPlayer) (m : Music)
    (hs : p.state = PlayerState.StateFadingOut)
    (hm : p.currentMusic = some m)
    (hp : p.isPaused = false)
    (hc : 0 ≤ p.counter) :
    fadeOutFrames = 120 ∧
    (p.counter + 1 < 120 →
      0 < p.counter + 1 ∧
      (MusicPlayer.Update env p).1 =
        { p with
            counter := p.counter + 1,
            volume := 1 - ((p.counter : ℚ) + 1) / 120,
            currentMusic :=
              some (m.SetVolume (1 - ((p.counter : ℚ) + 1) / 120)) }) ∧
    (p.counter + 1 = 120 →
      (MusicPlayer.Update env p).1 =
        { p with
            state := PlayerState.StateInterval,
            counter := 0,
            currentMusic := some m.Pause }) := by
  have hne : ¬ (p.currentMusic = none ∨ p.isPaused = true) := by
    simp [hm, hp]
  refine ⟨fadeOutFrames_eq, ?_, ?_⟩
  · intro hlt
    refine ⟨by omega, ?_⟩
    have hcond : ¬ (fadeOutFrames ≤ p.counter + 1) := by
      rw [fadeOutFrames_eq]; omega
    simp only [MusicPlayer.Update, hne, if_false, hs, hm, hp, hcond]
    simp [fadeOutFrames_eq]
  · intro heq
    have hcond : fadeOutFrames ≤ p.counter + 1 := by
      rw [fadeOutFrames_eq]; omega
    simp only [MusicPlayer.Update, hne, if_false, hs, hm, hp, hcond]
    simp

theorem ticks_playing_aux (env : AudioEnv) (p : MusicPlayer) (m : Music)
    (F : Int)
    (hs : p.state = PlayerState.StatePlaying)
    (hc : p.counter = 0)
    (hp : p.isPaused = false)
    (hm : p.currentMusic = some m)
    (hF : F = goInt (p.loopDuration * 60 * 60)) :
    ∀ k : Nat, (k : Int) < F →
      ticks env p k = { p with counter := (k : Int) } := by
  intro k
  induction k with
  | zero =>
      intro _
      show p = { p with counter := 0 }
      rw [← hc]
  | succ k ih =>
      intro hk
      have hk2 : (k : Int) < F := by push_cast at hk; omega
      rw [ticks, ih hk2]
      have hcond : ¬ (goInt (p.loopDuration * 60 * 60) ≤ (k : Int) + 1) := by
        rw [← hF]
        push_cast at hk
        omega
      have hres :
          MusicPlayer.Update env { p with counter := (k : Int) } =
            ({ p with counter := (k : Int) + 1 }, none) := by
        simp only [MusicPlayer.Update, hm, hp, hs, hcond]
        simp
      rw [hres]
      have : ((k : Int) + 1) = ((k + 1 : Nat) : Int) := by push_cast; ring
      rw [this]

/-- C3.  Starting in `Playing` with counter 0 and an unpaused handle,
with `F = int(loopDurationMinutes*60*60) ≥ 1` frames, the engine is
still in `Playing` with counter `k` after any `k < F` ticks, and on
exactly the `F`-th tick it enters `FadingOut` with the counter reset
to 0 (for `loopDurationMinutes = 5` this is the 18000th tick). -/
theorem play_duration (env : AudioEnv) (p : MusicPlayer) (m : Music)
    (F : Int)
    (hs : p.state = PlayerState.StatePlaying)
    (hc : p.counter = 0)
    (hp : p.isPaused = false)
    (hm : p.currentMusic = some m)
    (hF : F = goInt (p.loopDuration * 60 * 60))
    (hF1 : 1 ≤ F) :
    (∀ k : Nat, (k : Int) < F →
      (ticks env p k).state = PlayerState.StatePlaying ∧
      (ticks env p k).counter = (k : Int)) ∧
    (ticks env p F.toNat).state = PlayerState.StateFadingOut ∧
    (ticks env p F.toNat).counter = 0 := by
  have aux := ticks_playing_aux env p m F hs hc hp hm hF
  refine ⟨?_, ?_⟩
  · intro k hk
    rw [aux k hk]
    exact ⟨hs, rfl⟩
  · have hFt : F.toNat = (F - 1).toNat + 1 := by omega
    have hprev : (((F - 1).toNat : Nat) : Int) < F := by omega
    rw [hFt, ticks, aux _ hprev]
    have hcond :
        goInt (p.loopDuration * 60 * 60) ≤ ((F - 1).toNat : Int) + 1 := by
      rw [← hF]
      omega
    have hres :
        MusicPlayer.Update env { p with counter := ((F - 1).toNat : Int) } =
          ({ p with state := PlayerState.StateFadingOut, counter := 0 },
            none) := by
      simp only [MusicPlayer.Update, hm, hp, hs, hcond]
      simp
    rw [hres]
    exact ⟨rfl, rfl⟩

theorem play_duration_witness :
    (∀ k : Nat, (k : Int) < 18000 →
      (ticks envAll
        { selector := ⟨["a.wav", "b.wav"], 0⟩,
          currentMusic := some ⟨1, true⟩,
          state := PlayerState.StatePlaying, counter := 0,
          isPaused := false, loopDuration := 5, intervalDuration := 10,
          volume := 1 } k).state = PlayerState.StatePlaying ∧
      (ticks envAll
        { selector := ⟨["a.wav", "b.wav"], 0⟩,
          currentMusic := some ⟨1, true⟩,
          state := PlayerState.StatePlaying, counter := 0,
          isPaused := false, loopDuration := 5, intervalDuration := 10,
          volume := 1 } k).counter = (k : Int)) ∧
    (ticks envAll
      { selector := ⟨["a.wav", "b.wav"], 0⟩,
        currentMusic := some ⟨1, true⟩,
        state := PlayerState.StatePlaying, counter := 0,
        isPaused := false, loopDuration := 5, intervalDuration := 10,
        volume := 1 } (18000 : Int).toNat).state =
      PlayerState.StateFadingOut ∧
    (ticks envAll
      { selector := ⟨["a.wav", "b.wav"], 0⟩,
        currentMusic := some ⟨1, true⟩,
        state := PlayerState.StatePlaying, counter := 0,
        isPaused := false, loopDuration := 5, intervalDuration := 10,
        volume := 1 } (18000 : Int).toNat).counter = 0 :=
  play_duration envAll
    { selector := ⟨["a.wav", "b.wav"], 0⟩,
      currentMusic := some ⟨1, true⟩,
      state := PlayerState.StatePlaying, counter := 0,
      isPaused := false, loopDuration := 5, intervalDuration := 10,
      volume := 1 } ⟨1, true⟩ 18000 rfl rfl rfl rfl
    (by show (18000 : Int) = goInt ((5 : ℚ) * 60 * 60); norm_num [goInt])
    (by decide)

theorem fadeout_ramp_witness :
    (MusicPlayer.Update envAll
      { selector := ⟨["a.wav"], 0⟩, currentMusic := some ⟨1, true⟩,
        state := PlayerState.StateFadingOut, counter := 59,
        isPaused := false, loopDuration := 5, intervalDuration := 10,
        volume := 1 }).1.volume = 1 / 2 ∧
    (MusicPlayer.Update envAll
      { selector := ⟨["a.wav"], 0⟩, currentMusic := some ⟨1, true⟩,
        state := PlayerState.StateFadingOut, counter := 59,
        isPaused := false, loopDuration := 5, intervalDuration := 10,
        volume := 1 }).1.counter = 60 ∧
    (MusicPlayer.Update envAll
      { selector := ⟨["a.wav"], 0⟩, currentMusic := some ⟨1, true⟩,
        state := PlayerState.StateFadingOut, counter := 59,
        isPaused := false, loopDuration := 5, intervalDuration := 10,
        volume := 1 }).1.state = PlayerState.StateFadingOut := by
  obtain ⟨-, h1, -⟩ := fadeout_ramp envAll
    { selector := ⟨["a.wav"], 0⟩, currentMusic := some ⟨1, true⟩,
      state := PlayerState.StateFadingOut, counter := 59,
      isPaused := false, loopDuration := 5, intervalDuration := 10,
      volume := 1 } ⟨1, true⟩ rfl rfl rfl (by decide)
  obtain ⟨-, h2⟩ := h1 (by decide)
  rw [h2]
  refine ⟨?_, rfl, rfl⟩
  show 1 - ((59 : ℤ) + 1 : ℚ) / 120 = 1 / 2
  norm_num

/-- C4 counterexample.  On a 1-element library `SelectNext` wraps back
to the same index and reports no change, so `SkipToNext` returns
immediately: the volume is NOT reset to 1.0, no reload happens (counter
and state keep their old values) and the old handle keeps playing. -/
theorem skipToNext_counterexample :
    (SkipToNext envAll
      { selector := ⟨["a.wav"], 0⟩,
        currentMusic := some { hvolume := 1 / 2, hplaying := true },
        state := PlayerState.StateFadingOut, counter := 5,
        isPaused := false, loopDuration := 5, intervalDuration := 10,
        volume := 1 / 2 }).1.selector.currentIndex = 0 ∧
    (SkipToNext envAll
      { selector := ⟨["a.wav"], 0⟩,
        currentMusic := some { hvolume := 1 / 2, hplaying := true },
        state := PlayerState.StateFadingOut, counter := 5,
        isPaused := false, loopDuration := 5, intervalDuration := 10,
        volume := 1 / 2 }).1.volume ≠ 1 ∧
    (SkipToNext envAll
      { selector := ⟨["a.wav"], 0⟩,
        currentMusic := some { hvolume := 1 / 2, hplaying := true },
        state := PlayerState.StateFadingOut, counter := 5,
        isPaused := false, loopDuration := 5, intervalDuration := 10,
        volume := 1 / 2 }).1.currentMusic =
      some { hvolume := 1 / 2, hplaying := true } ∧
    (SkipToNext envAll
      { selector := ⟨["a.wav"], 0⟩,
        currentMusic := some { hvolume := 1 / 2, hplaying := true },
        state := PlayerState.StateFadingOut, counter := 5,
        isPaused := false, loopDuration := 5, intervalDuration := 10,
        volume := 1 / 2 }).1.counter = 5 ∧
    (SkipToNext envAll
      { selector := ⟨["a.wav"], 0⟩,
        currentMusic := some { hvolume := 1 / 2, hplaying := true },
        state := PlayerState.StateFadingOut, counter := 5,
        isPaused := false, loopDuration := 5, intervalDuration := 10,
        volume := 1 / 2 }).1.state = PlayerState.StateFadingOut := by
  refine ⟨rfl, ?_, rfl, rfl, rfl⟩
  show (1 : ℚ) / 2 ≠ 1
  norm_num

/-- C4 amended.  `SkipToNext` always advances the selector to the next
index (wrapping to 0 after the last entry, in any state and at any
counter).  When the index actually changes and the new track loads, the
volume is reset to 1.0 and the new track is started; when `SelectNext`
reports no change (as on a 1-element library) `SkipToNext` performs no
reload and leaves volume, handle, state and counter untouched. -/
theorem skipToNext_advance (env : AudioEnv) (p : MusicPlayer)
    (hvalid : 0 ≤ p.selector.currentIndex ∧
      p.selector.currentIndex < (p.selector.musicFiles.length : Int)) :
    ((p.selector.SelectNext).1.currentIndex =
      (if (p.selector.musicFiles.length : Int) ≤
          p.selector.currentIndex + 1
        then 0 else p.selector.currentIndex + 1)) ∧
    ((SkipToNext env p).1.selector.currentIndex =
      (p.selector.SelectNext).1.currentIndex) ∧
    ((SkipToNext env p).1.selector.musicFiles =
      p.selector.musicFiles) ∧
    ((p.selector.SelectNext).2 = true →
      loadOk env (fileAt p.selector.musicFiles
        (p.selector.SelectNext).1.currentIndex) = true →
      (SkipToNext env p).1.volume = 1 ∧
      (SkipToNext env p).1.currentMusic =
        some { hvolume := 1, hplaying := true } ∧
      (SkipToNext env p).1.state = PlayerState.StatePlaying ∧
      (SkipToNext env p).1.counter = 0 ∧
      (SkipToNext env p).2 = none) ∧
    ((p.selector.SelectNext).2 = false →
      (SkipToNext env p).1 =
        { p with selector := (p.selector.SelectNext).1 } ∧
      (SkipToNext env p).2 = none) := by
  have hlen : p.selector.musicFiles.length ≠ 0 := by
    obtain ⟨h0, h1⟩ := hvalid
    omega
  have hidx := SelectNext_index p.selector hlen
  have hfiles := SelectNext_files p.selector
  have hvalid2 :
      idxValid (p.selector.SelectNext).1.musicFiles
        (p.selector.SelectNext).1.currentIndex = true := by
    rw [hfiles, hidx]
    simp only [idxValid, decide_eq_true_eq]
    split <;> omega
  refine ⟨hidx, ?_, ?_, ?_, ?_⟩
  · simp only [SkipToNext]
    split
    · rfl
    · rw [loadCurrentMusic_selector]
  · simp only [SkipToNext]
    split
    · exact hfiles
    · rw [loadCurrentMusic_selector]
      exact hfiles
  · intro hch hload
    have hcf :
        ((p.selector.SelectNext).1).CurrentFile =
          (fileAt p.selector.musicFiles
            (p.selector.SelectNext).1.currentIndex, true) := by
      unfold MusicSelector.CurrentFile
      rw [if_pos hvalid2, hfiles]
    simp only [SkipToNext, hch]
    rw [loadCurrentMusic_ok env _ _ hcf hload]
    exact ⟨rfl, rfl, rfl, rfl, rfl⟩
  · intro hch
    simp only [SkipToNext, hch]
    exact ⟨rfl, rfl⟩

theorem skipToNext_advance_witness :
    (SkipToNext envAll
      { selector := ⟨["a.wav", "b.wav"], 0⟩,
        currentMusic := some { hvolume := 1 / 2, hplaying := true },
        state := PlayerState.StateFadingOut, counter := 5,
        isPaused := false, loopDuration := 5, intervalDuration := 10,
        volume := 1 / 2 }).1.selector.currentIndex = 1 ∧
    (SkipToNext envAll
      { selector := ⟨["a.wav", "b.wav"], 0⟩,
        currentMusic := some { hvolume := 1 / 2, hplaying := true },
        state := PlayerState.StateFadingOut, counter := 5,
        isPaused := false, loopDuration := 5, intervalDuration := 10,
        volume := 1 / 2 }).1.volume = 1 ∧
    (SkipToNext envAll
      { selector := ⟨["a.wav", "b.wav"], 0⟩,
        currentMusic := some { hvolume := 1 / 2, hplaying := true },
        state := PlayerState.StateFadingOut, counter := 5,
        isPaused := false, loopDuration := 5, intervalDuration := 10,
        volume := 1 / 2 }).1.currentMusic =
      some { hvolume := 1, hplaying := true } ∧
    (SkipToNext envAll
      { selector := ⟨["a.wav", "b.wav"], 0⟩,
        currentMusic := some { hvolume := 1 / 2, hplaying := true },
        state := PlayerState.StateFadingOut, counter := 5,
        isPaused := false, loopDuration := 5, intervalDuration := 10,
        volume := 1 / 2 }).1.state = PlayerState.StatePlaying := by
  obtain ⟨-, hselidx, -, himpl, -⟩ := skipToNext_advance envAll
    { selector := ⟨["a.wav", "b.wav"], 0⟩,
      currentMusic := some { hvolume := 1 / 2, hplaying := true },
      state := PlayerState.StateFadingOut, counter := 5,
      isPaused := false, loopDuration := 5, intervalDuration := 10,
      volume := 1 / 2 } (by decide)
  obtain ⟨hv, hcm, hst, -, -⟩ := himpl (by decide) (by decide)
  refine ⟨?_, hv, hcm, hst⟩
  rw [hselidx]
  decide

/-- An environment whose codecs reject every file's content. -/
def envNoDecode : AudioEnv :=
  { openOk := fun _ => true
    decodeOk := fun _ => false
    lengthOk := fun _ => true
    newPlayerOk := fun _ => true }

/-- C5 counterexample.  A failed load of a file with an unsupported
extension returns the error and clears the handle, but the engine
state is left as it was (here `Playing`), not set to `Stopped`:
`Stopped` is only assigned on the no-file-selected path. -/
theorem badfile_counterexample :
    (loadCurrentMusic envAll
      { selector := ⟨["bad.txt"], 0⟩,
        currentMusic := some { hvolume := 1, hplaying := true },
        state := PlayerState.StatePlaying, counter := 3,
        isPaused := false, loopDuration := 5, intervalDuration := 10,
        volume := 1 }).2 = some PErr.unsupportedFormat ∧
    (loadCurrentMusic envAll
      { selector := ⟨["bad.txt"], 0⟩,
        currentMusic := some { hvolume := 1, hplaying := true },
        state := PlayerState.StatePlaying, counter := 3,
        isPaused := false, loopDuration := 5, intervalDuration := 10,
        volume := 1 }).1.state = PlayerState.StatePlaying ∧
    (loadCurrentMusic envAll
      { selector := ⟨["bad.txt"], 0⟩,
        currentMusic := some { hvolume := 1, hplaying := true },
        state := PlayerState.StatePlaying, counter := 3,
        isPaused := false, loopDuration := 5, intervalDuration := 10,
        volume := 1 }).1.state ≠ PlayerState.StateStopped ∧
    (loadCurrentMusic envAll
      { selector := ⟨["bad.txt"], 0⟩,
        currentMusic := some { hvolume := 1, hplaying := true },
        state := PlayerState.StatePlaying, counter := 3,
        isPaused := false, loopDuration := 5, intervalDuration := 10,
        volume := 1 }).1.currentMusic = none := by
  exact ⟨rfl, rfl, by decide, rfl⟩

/-- C5 amended.  When the selected file has an unsupported extension or
its content is rejected by the codec, `loadCurrentMusic` reports the
failure as an error value, clears the current handle (so subsequent
ticks are no-ops) and leaves state, selector and volume unchanged —
it does not set `Stopped`; the engine remains usable: a later load of
the same selection in an environment where it succeeds starts playing
normally. -/
theorem badfile_fallback (env : AudioEnv) (p : MusicPlayer)
    (pth : String)
    (hsel : p.selector.CurrentFile = (pth, true))
    (hopen : env.openOk pth = true)
    (hbad : (IsWavFile pth || IsOggFile pth || IsMp3File pth) = false ∨
      env.decodeOk pth = false) :
    ((loadCurrentMusic env p).2 = some PErr.unsupportedFormat ∨
      (loadCurrentMusic env p).2 = some PErr.decodeFailed) ∧
    (loadCurrentMusic env p).1.state = p.state ∧
    (loadCurrentMusic env p).1.currentMusic = none ∧
    (loadCurrentMusic env p).1.selector = p.selector ∧
    (loadCurrentMusic env p).1.volume = p.volume ∧
    (∀ env2 : AudioEnv, loadOk env2 pth = true →
      (loadCurrentMusic env2 (loadCurrentMusic env p).1).2 = none ∧
      (loadCurrentMusic env2 (loadCurrentMusic env p).1).1.state =
        PlayerState.StatePlaying ∧
      (loadCurrentMusic env2 (loadCurrentMusic env p).1).1.currentMusic =
        some { hvolume := p.volume, hplaying := true }) := by
  have hls : LoadStream env pth = some PErr.unsupportedFormat ∨
      LoadStream env pth = some PErr.decodeFailed := by
    unfold LoadStream
    rcases hbad with hext | hdec
    · simp only [Bool.or_eq_false_iff] at hext
      obtain ⟨⟨hw, ho⟩, hm3⟩ := hext
      simp [hopen, hw, ho, hm3]
    · by_cases hw : IsWavFile pth <;> by_cases ho : IsOggFile pth <;>
        by_cases hm3 : IsMp3File pth <;>
        simp [hopen, hdec, hw, ho, hm3]
  have hmain : loadCurrentMusic env p =
      ({ p with currentMusic := none }, LoadStream env pth) := by
    unfold loadCurrentMusic
    rw [hsel]
    rcases hls with h | h <;> simp [h]
  refine ⟨?_, ?_, ?_, ?_, ?_, ?_⟩
  · rw [hmain]
    exact hls
  · rw [hmain]
  · rw [hmain]
  · rw [hmain]
  · rw [hmain]
  · intro env2 hok2
    have hfst : (loadCurrentMusic env p).1 =
        { p with currentMusic := none } := by
      rw [hmain]
    rw [hfst,
      loadCurrentMusic_ok env2 { p with currentMusic := none } pth hsel
        hok2]
    exact ⟨rfl, rfl, rfl⟩

theorem badfile_fallback_witness :
    ((loadCurrentMusic envNoDecode
      { selector := ⟨["bad.wav"], 0⟩,
        currentMusic := some { hvolume := 1, hplaying := true },
        state := PlayerState.StatePlaying, counter := 3,
        isPaused := false, loopDuration := 5, intervalDuration := 10,
        volume := 1 }).2 = some PErr.unsupportedFormat ∨
      (loadCurrentMusic envNoDecode
      { selector := ⟨["bad.wav"], 0⟩,
        currentMusic := some { hvolume := 1, hplaying := true },
        state := PlayerState.StatePlaying, counter := 3,
        isPaused := false, loopDuration := 5, intervalDuration := 10,
        volume := 1 }).2 = some PErr.decodeFailed) ∧
    (loadCurrentMusic envNoDecode
      { selector := ⟨["bad.wav"], 0⟩,
        currentMusic := some { hvolume := 1, hplaying := true },
        state := PlayerState.StatePlaying, counter := 3,
        isPaused := false, loopDuration := 5, intervalDuration := 10,
        volume := 1 }).1.state = PlayerState.StatePlaying ∧
    (loadCurrentMusic envAll
      (loadCurrentMusic envNoDecode
        { selector := ⟨["bad.wav"], 0⟩,
          currentMusic := some { hvolume := 1, hplaying := true },
          state := PlayerState.StatePlaying, counter := 3,
          isPaused := false, loopDuration := 5, intervalDuration := 10,
          volume := 1 }).1).2 = none ∧
    (loadCurrentMusic envAll
      (loadCurrentMusic envNoDecode
        { selector := ⟨["bad.wav"], 0⟩,
          currentMusic := some { hvolume := 1, hplaying := true },
          state := PlayerState.StatePlaying, counter := 3,
          isPaused := false, loopDuration := 5, intervalDuration := 10,
          volume := 1 }).1).1.state = PlayerState.StatePlaying := by
  obtain ⟨herr, hstate, -, -, -, hrec⟩ := badfile_fallback envNoDecode
    { selector := ⟨["bad.wav"], 0⟩,
      currentMusic := some { hvolume := 1, hplaying := true },
      state := PlayerState.StatePlaying, counter := 3,
      isPaused := false, loopDuration := 5, intervalDuration := 10,
      volume := 1 } "bad.wav" rfl rfl (Or.inr rfl)
  obtain ⟨hr1, hr2, -⟩ := hrec envAll (by decide)
  exact ⟨herr, hstate, hr1, hr2⟩

/-- Whenever `loadCurrentMusic` leaves a handle installed, that
handle's volume is the engine's (unchanged) current volume. -/
theorem loadCurrentMusic_handle (env : AudioEnv) (p : MusicPlayer) :
    (loadCurrentMusic env p).1.currentMusic = none ∨
    (loadCurrentMusic env p).1.currentMusic =
      some { hvolume := p.volume, hplaying := true } := by
  simp only [loadCurrentMusic]
  repeat first
  | exact Or.inl rfl
  | exact Or.inr rfl
  | split

theorem Update_volume (env : AudioEnv) (p : MusicPlayer)
    (hcnt : 0 ≤ p.counter) (h0 : 0 ≤ p.volume) (h1 : p.volume ≤ 1) :
    0 ≤ (MusicPlayer.Update env p).1.volume ∧
      (MusicPlayer.Update env p).1.volume ≤ 1 := by
  simp only [MusicPlayer.Update]
  split
  · exact ⟨h0, h1⟩
  · split
    · exact ⟨h0, h1⟩
    · split
      · exact ⟨h0, h1⟩
      · exact ⟨h0, h1⟩
    · split
      · exact ⟨h0, h1⟩
      next hlt =>
        rw [fadeOutFrames_eq] at hlt
        show (0 : ℚ) ≤
            1 - ((p.counter + 1 : Int) : ℚ) / ((fadeOutFrames : Int) : ℚ) ∧
          1 - ((p.counter + 1 : Int) : ℚ) / ((fadeOutFrames : Int) : ℚ) ≤ 1
        rw [fadeOutFrames_eq]
        have hc1 : (1 : ℚ) ≤ ((p.counter + 1 : Int) : ℚ) := by
          exact_mod_cast by omega
        have hc2 : ((p.counter + 1 : Int) : ℚ) ≤ ((120 : Int) : ℚ) := by
          exact_mod_cast by omega
        have h120 : (0 : ℚ) < ((120 : Int) : ℚ) := by
          push_cast
          norm_num
        constructor
        · rw [sub_nonneg, div_le_one h120]
          exact hc2
        · have hdiv : (0 : ℚ) ≤
              ((p.counter + 1 : Int) : ℚ) / ((120 : Int) : ℚ) :=
            div_nonneg (by linarith) (le_of_lt h120)
          linarith
    · split
      · rw [SkipToNext_volume]
        split
        · norm_num
        · norm_num
      · exact ⟨h0, h1⟩

/-- C6 amended.  The engine volume always stays in `[0, 1]`; during
operation it is changed only by the fade-out ramp and by the explicit
`1.0` resets in `SkipToNext` (when the index changes) and the
`Interval → Playing` transition.  Reloads triggered by
`SetCurrentIndex` or `UpdateMusicFiles` keep the current volume and
apply that (not 1.0) to the freshly loaded handle. -/
theorem volume_invariant (env : AudioEnv) (p : MusicPlayer)
    (hcnt : 0 ≤ p.counter) (h0 : 0 ≤ p.volume) (h1 : p.volume ≤ 1) :
    (0 ≤ (MusicPlayer.Update env p).1.volume ∧
      (MusicPlayer.Update env p).1.volume ≤ 1) ∧
    ((p.selector.SelectNext).2 = true →
      (SkipToNext env p).1.volume = 1) ∧
    (∀ i : Int, (SetCurrentIndex env p i).1.volume = p.volume) ∧
    (∀ fs : List String, (UpdateMusicFiles env p fs).volume = p.volume) ∧
    (0 ≤ (SkipToNext env p).1.volume ∧ (SkipToNext env p).1.volume ≤ 1) ∧
    (∀ m2 : Music,
      (loadCurrentMusic env p).1.currentMusic = some m2 →
      m2.hvolume = p.volume) := by
  refine ⟨Update_volume env p hcnt h0 h1, ?_, ?_, ?_, ?_, ?_⟩
  · intro hch
    rw [SkipToNext_volume, if_pos hch]
  · intro i
    exact SetCurrentIndex_volume env p i
  · intro fs
    exact UpdateMusicFiles_volume env p fs
  · rw [SkipToNext_volume]
    split
    · norm_num
    · exact ⟨h0, h1⟩
  · intro m2 hm2
    rcases loadCurrentMusic_handle env p with h | h
    · rw [h] at hm2
      cases hm2
    · rw [h] at hm2
      cases hm2
      rfl

theorem volume_invariant_witness :
    (0 ≤ (MusicPlayer.Update envAll
      { selector := ⟨["a.wav", "b.wav"], 0⟩,
        currentMusic := some { hvolume := 1, hplaying := true },
        state := PlayerState.StateFadingOut, counter := 60,
        isPaused := false, loopDuration := 5, intervalDuration := 10,
        volume := 1 }).1.volume ∧
      (MusicPlayer.Update envAll
      { selector := ⟨["a.wav", "b.wav"], 0⟩,
        currentMusic := some { hvolume := 1, hplaying := true },
        state := PlayerState.StateFadingOut, counter := 60,
        isPaused := false, loopDuration := 5, intervalDuration := 10,
        volume := 1 }).1.volume ≤ 1) ∧
    (SetCurrentIndex envAll
      { selector := ⟨["a.wav", "b.wav"], 0⟩,
        currentMusic := some { hvolume := 1, hplaying := true },
        state := PlayerState.StateFadingOut, counter := 60,
        isPaused := false, loopDuration := 5, intervalDuration := 10,
        volume := 1 } 1).1.volume = 1 := by
  obtain ⟨hupd, -, hset, -, -, -⟩ := volume_invariant envAll
    { selector := ⟨["a.wav", "b.wav"], 0⟩,
      currentMusic := some { hvolume := 1, hplaying := true },
      state := PlayerState.StateFadingOut, counter := 60,
      isPaused := false, loopDuration := 5, intervalDuration := 10,
      volume := 1 } (by decide) zero_le_one le_rfl
  exact ⟨hupd, hset 1⟩

/-- C6 counterexample.  A successful reload via `SetCurrentIndex`
during a fade keeps the faded volume (here `1/2`) instead of resetting
it to 1.0, and applies that faded volume to the new handle. -/
theorem volume_not_reset_counterexample :
    (SetCurrentIndex envAll
      { selector := ⟨["a.wav", "b.wav"], 0⟩,
        currentMusic := some { hvolume := 1 / 2, hplaying := true },
        state := PlayerState.StateFadingOut, counter := 60,
        isPaused := false, loopDuration := 5, intervalDuration := 10,
        volume := 1 / 2 } 1).2 = none ∧
    (SetCurrentIndex envAll
      { selector := ⟨["a.wav", "b.wav"], 0⟩,
        currentMusic := some { hvolume := 1 / 2, hplaying := true },
        state := PlayerState.StateFadingOut, counter := 60,
        isPaused := false, loopDuration := 5, intervalDuration := 10,
        volume := 1 / 2 } 1).1.state = PlayerState.StatePlaying ∧
    (SetCurrentIndex envAll
      { selector := ⟨["a.wav", "b.wav"], 0⟩,
        currentMusic := some { hvolume := 1 / 2, hplaying := true },
        state := PlayerState.StateFadingOut, counter := 60,
        isPaused := false, loopDuration := 5, intervalDuration := 10,
        volume := 1 / 2 } 1).1.currentMusic =
      some { hvolume := 1 / 2, hplaying := true } ∧
    (SetCurrentIndex envAll
      { selector := ⟨["a.wav", "b.wav"], 0⟩,
        currentMusic := some { hvolume := 1 / 2, hplaying := true },
        state := PlayerState.StateFadingOut, counter := 60,
        isPaused := false, loopDuration := 5, intervalDuration := 10,
        volume := 1 / 2 } 1).1.volume ≠ 1 := by
  refine ⟨rfl, rfl, rfl, ?_⟩
  show (1 : ℚ) / 2 ≠ 1
  norm_num

end MusicAssetTester
